import Mathlib

/- Shallow embedding of the cteepbd command-line driver (src/bin/cteepbd.rs)
and the RenNrenCo2 carrier algebra (src/rennrenco2.rs).  Rust f32 values are
modelled as rationals: f32 comparisons and arithmetic translate to exact
rational operations.  Functions of the cteepbd library crate that the driver
calls but whose source is not part of this repository snapshot (the MetaVec
metadata helpers and the cte constants) are modelled from the specification
and marked as such in their doc comments. -/

namespace Epbd

/-- Energy triple from src/rennrenco2.rs: renewable, non-renewable and CO2
quantities or factors.  The Rust f32 fields are modelled as rationals. -/
structure RenNrenCo2 where
  ren : ℚ
  nren : ℚ
  co2 : ℚ
deriving DecidableEq

/-- Embedding of RenNrenCo2::tot: `self.ren + self.nren`. -/
def RenNrenCo2.tot (f : RenNrenCo2) : ℚ := f.ren + f.nren

/-- Embedding of RenNrenCo2::rer: `if tot == 0.0 then 0.0 else self.ren / tot`. -/
def RenNrenCo2.rer (f : RenNrenCo2) : ℚ :=
  if f.tot = 0 then 0 else f.ren / f.tot

/-- Embedding of the Add impl for RenNrenCo2 (component-wise, no rounding). -/
def RenNrenCo2.add (a b : RenNrenCo2) : RenNrenCo2 :=
  ⟨a.ren + b.ren, a.nren + b.nren, a.co2 + b.co2⟩

/-- Embedding of the Sub impl for RenNrenCo2 (component-wise, no rounding). -/
def RenNrenCo2.sub (a b : RenNrenCo2) : RenNrenCo2 :=
  ⟨a.ren - b.ren, a.nren - b.nren, a.co2 - b.co2⟩

/-- Embedding of the Mul impl rennren * f32 (component-wise, no rounding). -/
def RenNrenCo2.mulScalar (a : RenNrenCo2) (rhs : ℚ) : RenNrenCo2 :=
  ⟨a.ren * rhs, a.nren * rhs, a.co2 * rhs⟩

/-- Embedding of the Mul impl f32 * rennren (component-wise, no rounding). -/
def scalarMul (lhs : ℚ) (rhs : RenNrenCo2) : RenNrenCo2 :=
  ⟨lhs * rhs.ren, lhs * rhs.nren, lhs * rhs.co2⟩

/-- Rust f32::round: round to nearest integer, halves away from zero. -/
def rustRound (x : ℚ) : ℤ :=
  if 0 ≤ x then ⌊x + 1/2⌋ else -⌊-x + 1/2⌋

/-- Embedding of round_serialize_3 (src/rennrenco2.rs line 45): the value
serde emits for a field, `(x * 1000.0).round() / 1000.0`. -/
def round3 (x : ℚ) : ℚ := (rustRound (x * 1000) : ℚ) / 1000

/-- The triple a serde serializer receives: every field of RenNrenCo2 is
annotated with serialize_with round_serialize_3. -/
def RenNrenCo2.serialized (f : RenNrenCo2) : RenNrenCo2 :=
  ⟨round3 f.ren, round3 f.nren, round3 f.co2⟩

/-- Left-pad the fractional part to three digits. -/
def pad3 (n : ℕ) : String :=
  if n < 10 then "00" ++ toString n
  else if n < 100 then "0" ++ toString n
  else toString n

/-- Rust fixed three-decimal formatting of an f32, as used by the Display impl
and by the update_meta write-back in get_factor.  Rounding is modelled half
away from zero, like f32::round. -/
def fmt3 (x : ℚ) : String :=
  let m := rustRound (x * 1000)
  (if m < 0 then "-" else "") ++ toString (m.natAbs / 1000) ++ "." ++ pad3 (m.natAbs % 1000)

/-- Embedding of the Display impl for RenNrenCo2 (src/rennrenco2.rs lines
70-74): each field printed with three decimals. -/
def RenNrenCo2.display (f : RenNrenCo2) : String :=
  "\x7b ren: " ++ fmt3 f.ren ++ ", nren: " ++ fmt3 f.nren ++ ", co2: " ++ fmt3 f.co2 ++ " \x7d"

/-- Numeric value of a digit list, most significant digit first. -/
def digitsVal (cs : List Char) : ℕ :=
  cs.foldl (fun acc c => 10 * acc + (c.toNat - 48)) 0

/-- Unsigned part of the f32 decimal grammar: digits, an optional dot and
optional further digits, at least one digit in total.  The denoted exact
rational (intpart.fracpart = (intpart·10^k + fracpart) / 10^k) is built with
the core constructor mkRat so that concrete inputs evaluate. -/
def parseUnsignedDecimal (cs : List Char) : Option ℚ :=
  let ip := cs.takeWhile Char.isDigit
  let rest := cs.dropWhile Char.isDigit
  match rest with
  | [] => if ip.isEmpty then none else some (mkRat (Int.ofNat (digitsVal ip)) 1)
  | c :: fp =>
    if c = '.' then
      if fp.all Char.isDigit then
        if ip.isEmpty ∧ fp.isEmpty then none
        else some (mkRat (Int.ofNat (digitsVal ip * Nat.pow 10 fp.length + digitsVal fp))
          (Nat.pow 10 fp.length))
      else none
    else none

/-- Model of f32::from_str restricted to the plain decimal forms the program
deals in: optional sign, integer digits, optional fraction. -/
def parseDecimalChars (cs : List Char) : Option ℚ :=
  match cs with
  | [] => none
  | c :: rest =>
    if c = '+' then parseUnsignedDecimal rest
    else if c = '-' then (parseUnsignedDecimal rest).map Rat.neg
    else parseUnsignedDecimal (c :: rest)

/-- Whitespace for the purposes of str::trim. -/
def isSpaceChar (c : Char) : Bool :=
  c = ' ' ∨ c.toNat = 9 ∨ c.toNat = 10 ∨ c.toNat = 13

/-- Model of str::trim: drop leading and trailing whitespace. -/
def trimSpaces (cs : List Char) : List Char :=
  (((cs.dropWhile isSpaceChar).reverse).dropWhile isSpaceChar).reverse

/-- f32::from_str applied after str::trim, the form every call site uses. -/
def parseF32Trim (s : String) : Option ℚ :=
  parseDecimalChars (trimSpaces s.data)

/-- Split a character list on commas, keeping empty segments, as
String::split does for the metadata triple values. -/
def splitOnComma (cs : List Char) : List (List Char) :=
  match cs with
  | [] => [[]]
  | c :: rest =>
    if c = ',' then [] :: splitOnComma rest
    else
      match splitOnComma rest with
      | [] => [[c]]
      | h :: t => (c :: h) :: t

/-- Metadata entry: a key and a value string. -/
structure CMeta where
  key : String
  value : String
deriving DecidableEq

/-- Component row.  Modelled from the spec (section 3): tags and a value
series.  Only membership in the cdata list matters to the driver code
under verification here. -/
structure Component where
  carrier : String
  ctype : String
  csubtype : String
  service : String
  values : List ℚ
deriving DecidableEq

/-- The components list: metadata entries plus component rows. -/
structure Components where
  cmeta : List CMeta
  cdata : List Component
deriving DecidableEq

/-- Modelled from the spec: MetaVec::get_meta of the cteepbd library crate
(not under src/) — the value of the first entry with the key, the store
being an insertion-ordered key/value side table. -/
def Components.get_meta (c : Components) (key : String) : Option String :=
  (c.cmeta.find? (fun m => m.key == key)).map CMeta.value

/-- Modelled from the spec: MetaVec::has_meta of the cteepbd library crate
(not under src/) — whether an entry with the key exists. -/
def Components.has_meta (c : Components) (key : String) : Bool :=
  (c.get_meta key).isSome

/-- Modelled from the spec: MetaVec::get_meta_f32 of the cteepbd library
crate (not under src/) — the metadata value parsed as an f32. -/
def Components.get_meta_f32 (c : Components) (key : String) : Option ℚ :=
  (c.get_meta key).bind parseF32Trim

/-- Modelled from the spec: MetaVec::get_meta_rennren of the cteepbd library
crate (not under src/) — the metadata value read as a comma-separated
triple "ren, nren, co2". -/
def Components.get_meta_rennren (c : Components) (key : String) : Option RenNrenCo2 :=
  (c.get_meta key).bind (fun s =>
    match (splitOnComma s.data).map (fun p => parseDecimalChars (trimSpaces p)) with
    | [some r, some n, some c2] => some ⟨r, n, c2⟩
    | _ => none)

/-- Modelled from the spec: MetaVec::update_meta of the cteepbd library
crate (not under src/) — replace the value of an existing key, or append
a new entry at the end of the insertion-ordered store. -/
def Components.update_meta (c : Components) (key val : String) : Components :=
  if c.has_meta key then
    { c with cmeta := c.cmeta.map (fun m => if m.key == key then ⟨key, val⟩ else m) }
  else
    { c with cmeta := c.cmeta ++ [⟨key, val⟩] }

/-- Argument names declared on the clap App in main (src/bin/cteepbd.rs
lines 266-389). -/
def declaredArgs : List String :=
  ["arearef", "kexp", "archivo_componentes", "archivo_factores", "fps_loc",
   "gen_archivo_componentes", "gen_archivo_factores", "archivo_salida_json",
   "archivo_salida_xml", "archivo_salida_txt", "cogen", "red1", "red2",
   "acsnrb", "nosimplificafps", "showlicense", "v"]

/-- number_of_values(2) declared on the red2 argument (src/bin/cteepbd.rs
line 368): clap collects exactly this many values per occurrence. -/
def red2NumberOfValues : ℕ := 2

/-- number_of_values(3) declared on the red1 argument (line 362). -/
def red1NumberOfValues : ℕ := 3

/-- number_of_values(3) declared on the cogen argument (line 356). -/
def cogenNumberOfValues : ℕ := 3

/-- clap ArgMatches: the matched-argument map.  Only declared argument names
can ever appear in it (clap v2 inserts only declared args). -/
structure ArgMatches where
  args : List (String × List String)
  wf : ∀ p ∈ args, p.1 ∈ declaredArgs

/-- clap ArgMatches::values_of: the raw values collected for a name; None
for an absent — in particular for an undeclared — name. -/
def ArgMatches.values_of (m : ArgMatches) (name : String) : Option (List String) :=
  (m.args.find? (fun p => p.1 == name)).map Prod.snd

/-- clap ArgMatches::is_present: whether the name is in the matched map. -/
def ArgMatches.is_present (m : ArgMatches) (name : String) : Bool :=
  (m.args.find? (fun p => p.1 == name)).isSome

/-- Outcome of get_factor: a normal return carrying the resolved factor and
the (possibly updated) components, an exit(DATAERR) from the number-format
error path, or the vv[i] indexing panic when fewer than three values were
collected. -/
inductive GetFactorResult where
  | ok (factor : Option RenNrenCo2) (components : Components)
  | exitDataErr
  | panicIndexOutOfBounds
deriving DecidableEq

/-- The `v.map(... f32::from_str(vv.trim()) ...).collect()` loop inside
get_factor: parse every collected CLI value, exiting on the first failure. -/
def parseValues : List String → Option (List ℚ)
  | [] => some []
  | v :: rest =>
    match parseF32Trim v with
    | none => none
    | some q =>
      match parseValues rest with
      | none => none
      | some qs => some (q :: qs)

/-- The `format!` "three decimals each" string written back into the
components metadata by get_factor (src/bin/cteepbd.rs line 167). -/
def fmtTriple (f : RenNrenCo2) : String :=
  fmt3 f.ren ++ ", " ++ fmt3 f.nren ++ ", " ++ fmt3 f.co2

/-- Embedding of get_factor (src/bin/cteepbd.rs lines 122-171): resolve a
weighting factor from CLI values (positions 0, 1, 2 of the collected list)
or else from components metadata, writing any resolved value back into the
metadata formatted to three decimals per component. -/
def get_factor (matchesValues : Option (List String)) (components : Components)
    (meta : String) : GetFactorResult :=
  match matchesValues with
  | some vs =>
    match parseValues vs with
    | none => .exitDataErr
    | some vv =>
      match vv with
      | r :: n :: c2 :: _ =>
        let userval : RenNrenCo2 := ⟨r, n, c2⟩
        .ok (some userval) (components.update_meta meta (fmtTriple userval))
      | _ => .panicIndexOutOfBounds
  | none =>
    match components.get_meta_rennren meta with
    | some metaval => .ok (some metaval) (components.update_meta meta (fmtTriple metaval))
    | none => .ok none components

/-- Exit-or-continue outcome of a CLI validation. -/
inductive Validation where
  | ok
  | exitDataErr
deriving DecidableEq

/-- Modelled from the spec: cte::KEXP_DEFAULT of the cteepbd library crate
(not under src/), the regulatory default export factor 0.0. -/
def KEXP_DEFAULT : ℚ := 0

/-- Modelled from the spec: cte::AREAREF_DEFAULT of the cteepbd library
crate (not under src/), the default reference area 1.0. -/
def AREAREF_DEFAULT : ℚ := 1

/-- Embedding of validate_kexp (src/bin/cteepbd.rs lines 78-102).  The input
is the parsed CLI value (none models a parse failure).  First component:
exit or continue; second component: whether the non-regulatory-kexp warning
was printed. -/
def validate_kexp (kexpRaw : Option ℚ) : Validation × Bool :=
  match kexpRaw with
  | none => (.exitDataErr, false)
  | some kexp =>
    if kexp < 0 ∨ 1 < kexp then (.exitDataErr, false)
    else (.ok, decide (kexp ≠ KEXP_DEFAULT))

/-- Embedding of validate_arearef (src/bin/cteepbd.rs lines 105-119).  The
source compares against the f32 literal 1e-3 (line 114). -/
def validate_arearef (arearefRaw : Option ℚ) : Validation :=
  match arearefRaw with
  | none => .exitDataErr
  | some arearef => if arearef ≤ 1/1000 then .exitDataErr else .ok

/-- Embedding of get_arearef (src/bin/cteepbd.rs lines 201-229): components
metadata CTE_AREAREF beats the CLI default, an explicit CLI value beats the
metadata.  none models the DATAERR exit on non-numeric metadata.  The
mismatch AVISO print is not modelled (it does not change the result). -/
def get_arearef (components : Components) (occurrences : ℕ) (cliVal : ℚ) : Option ℚ :=
  if components.has_meta "CTE_AREAREF" then
    match components.get_meta_f32 "CTE_AREAREF" with
    | none => none
    | some arearef => if occurrences = 0 then some arearef else some cliVal
  else if occurrences ≠ 0 then some cliVal
  else some AREAREF_DEFAULT

/-- Embedding of get_kexp (src/bin/cteepbd.rs lines 233-261), analogous to
get_arearef with metadata key CTE_KEXP. -/
def get_kexp (components : Components) (occurrences : ℕ) (cliVal : ℚ) : Option ℚ :=
  if components.has_meta "CTE_KEXP" then
    match components.get_meta_f32 "CTE_KEXP" with
    | none => none
    | some kexp => if occurrences = 0 then some kexp else some cliVal
  else if occurrences ≠ 0 then some cliVal
  else some KEXP_DEFAULT

/-- The clap value of an argument that has a declared default: the user
value when an occurrence exists, the default otherwise. -/
def cliValueOrDefault (occurrences : ℕ) (userVal defaultVal : ℚ) : ℚ :=
  if occurrences = 0 then defaultVal else userVal

/-- main's kexp path: validate_kexp runs on the CLI value — always present
through the declared default "0.0" — and then get_kexp resolves the value
(lines 450 and 574 of src/bin/cteepbd.rs).  none models a DATAERR exit. -/
def mainKexp (components : Components) (occurrences : ℕ) (userVal : ℚ) : Option ℚ :=
  let cliVal := cliValueOrDefault occurrences userVal 0
  match (validate_kexp (some cliVal)).1 with
  | .exitDataErr => none
  | .ok => get_kexp components occurrences cliVal

/-- main's arearef path: validate_arearef on the CLI value — always present
through the declared default "1.0" — then get_arearef (lines 453 and 567). -/
def mainArearef (components : Components) (occurrences : ℕ) (userVal : ℚ) : Option ℚ :=
  let cliVal := cliValueOrDefault occurrences userVal 1
  match validate_arearef (some cliVal) with
  | .exitDataErr => none
  | .ok => get_arearef components occurrences cliVal

/-- The three outcomes of the balance section of main (src/bin/cteepbd.rs
lines 609-625). -/
inductive BalanceBranch where
  | computed
  | skipBalanceFactorsFileMsg
  | insufficientDataMsg
deriving DecidableEq

/-- Embedding of the balance branch of main: compute the balance when
component rows exist; otherwise the source tests is_present of the
misspelled name "gen_archivos_factores" before falling back to the
insufficient-data message. -/
def mainBalanceBranch (components : Components) (m : ArgMatches) : BalanceBranch :=
  if !components.cdata.isEmpty then .computed
  else if m.is_present "gen_archivos_factores" then .skipBalanceFactorsFileMsg
  else .insufficientDataMsg

/-- Round-half-up is within one half of the argument. -/
lemma halfUp_near (y : ℚ) : |(⌊y + 1/2⌋ : ℚ) - y| ≤ 1/2 := by
  have h1 : (⌊y + 1/2⌋ : ℚ) ≤ y + 1/2 := Int.floor_le _
  have h2 : y + 1/2 < (⌊y + 1/2⌋ : ℚ) + 1 := Int.lt_floor_add_one _
  rw [abs_le]
  constructor <;> linarith

/-- rustRound is within one half of the argument. -/
lemma rustRound_near (y : ℚ) : |(rustRound y : ℚ) - y| ≤ 1/2 := by
  unfold rustRound
  split
  · exact halfUp_near y
  · have h := halfUp_near (-y)
    push_cast
    rw [show -((⌊-y + 1/2⌋ : ℚ)) - y = -((⌊-y + 1/2⌋ : ℚ) - -y) by ring, abs_neg]
    exact h

/-- The serialized field is within half a millesimal of the exact value. -/
lemma round3_near (x : ℚ) : |round3 x - x| ≤ 1/2000 := by
  have h := rustRound_near (x * 1000)
  unfold round3
  rw [show (rustRound (x * 1000) : ℚ) / 1000 - x =
      ((rustRound (x * 1000) : ℚ) - x * 1000) / 1000 by ring]
  rw [abs_div]
  rw [show |(1000 : ℚ)| = 1000 from abs_of_pos (by norm_num)]
  linarith

/-- A key whose metadata parses as a number is present in the metadata. -/
lemma has_meta_of_get_meta_f32 {c : Components} {key : String} {q : ℚ}
    (h : c.get_meta_f32 key = some q) : c.has_meta key = true := by
  unfold Components.get_meta_f32 at h
  unfold Components.has_meta
  cases hg : c.get_meta key with
  | none => rw [hg] at h; simp at h
  | some s => rfl

/-- values_of an undeclared argument name is always None. -/
lemma values_of_undeclared (m : ArgMatches) (name : String)
    (h : name ∉ declaredArgs) : m.values_of name = none := by
  unfold ArgMatches.values_of
  cases hf : m.args.find? (fun p => p.1 == name) with
  | none => rfl
  | some p =>
    exfalso
    have hp := List.find?_some hf
    simp only [beq_iff_eq] at hp
    have hmem : p ∈ m.args := List.mem_of_find?_eq_some hf
    have hdecl := m.wf p hmem
    rw [hp] at hdecl
    exact h hdecl

/-- is_present of an undeclared argument name is always false. -/
lemma is_present_undeclared (m : ArgMatches) (name : String)
    (h : name ∉ declaredArgs) : m.is_present name = false := by
  unfold ArgMatches.is_present
  cases hf : m.args.find? (fun p => p.1 == name) with
  | none => rfl
  | some p =>
    exfalso
    have hp := List.find?_some hf
    simp only [beq_iff_eq] at hp
    have hmem : p ∈ m.args := List.mem_of_find?_eq_some hf
    have hdecl := m.wf p hmem
    rw [hp] at hdecl
    exact h hdecl

/-- Claim C1: the red2 argument is declared with number_of_values(2), so any
list of values clap collects for it has length 2, and get_factor (which
reads positions 0, 1 and 2 of the collected values) can never return
normally on it: it either exits on a format error or panics on the vv[2]
out-of-bounds access.  This refutes the in-bounds property the claim
states. -/
theorem red2_collected_values_overflow (vs : List String) (c : Components) (meta : String)
    (h : vs.length = red2NumberOfValues) :
    get_factor (some vs) c meta = .exitDataErr ∨
      get_factor (some vs) c meta = .panicIndexOutOfBounds := by
  cases vs with
  | nil => simp [red2NumberOfValues] at h
  | cons a t =>
    cases t with
    | nil => simp [red2NumberOfValues] at h
    | cons b t2 =>
      cases t2 with
      | cons c3 t3 =>
        simp only [List.length_cons, red2NumberOfValues] at h
        omega
      | nil =>
        cases hpa : parseF32Trim a with
        | none => left; simp [get_factor, parseValues, hpa]
        | some qa =>
          cases hpb : parseF32Trim b with
          | none => left; simp [get_factor, parseValues, hpa, hpb]
          | some qb => right; simp [get_factor, parseValues, hpa, hpb]

/-- Witness for C1: the two-value occurrence --red2 0 1.3 that clap accepts
makes get_factor panic. -/
theorem red2_collected_values_overflow_witness :
    (["0", "1.3"] : List String).length = red2NumberOfValues ∧
      (get_factor (some ["0", "1.3"]) ⟨[], []⟩ "CTE_RED2" = .exitDataErr ∨
        get_factor (some ["0", "1.3"]) ⟨[], []⟩ "CTE_RED2" = .panicIndexOutOfBounds) :=
  ⟨by decide, red2_collected_values_overflow ["0", "1.3"] ⟨[], []⟩ "CTE_RED2" (by decide)⟩

/-- Claim C2: with no component rows and the factors output file requested,
the balance branch of main prints the insufficient-data message, because
the source tests is_present of the misspelled name "gen_archivos_factores",
which is never present.  This exhibits the divergence from the claimed
(and spec-intended) factors-file-generated message. -/
theorem empty_components_with_factors_file_insufficient_msg
    (c : Components) (m : ArgMatches)
    (hc : c.cdata = []) (hm : m.is_present "gen_archivo_factores" = true) :
    mainBalanceBranch c m = .insufficientDataMsg := by
  have hmiss : m.is_present "gen_archivos_factores" = false :=
    is_present_undeclared m "gen_archivos_factores" (by decide)
  simp [mainBalanceBranch, hc, hmiss]

/-- Witness for C2: a concrete run with empty components and --of given. -/
theorem empty_components_with_factors_file_insufficient_msg_witness :
    mainBalanceBranch ⟨[], []⟩
        ⟨[("gen_archivo_factores", ["factors_out.csv"])], by decide⟩ =
      .insufficientDataMsg :=
  empty_components_with_factors_file_insufficient_msg _ _ rfl (by decide)

/-- Counterexample for C3: the arearef value 1/2000 = 0.0005 is strictly
positive, yet validate_arearef exits with DATAERR on it, refuting the
claimed accept-iff-positive boundary. -/
theorem arearef_small_positive_rejected :
    (0 : ℚ) < 1/2000 ∧ validate_arearef (some (1/2000)) = .exitDataErr := by
  constructor
  · norm_num
  · simp only [validate_arearef]
    rw [if_pos (by norm_num)]

/-- Claim C3 (amended): validate_arearef accepts a numeric arearef exactly
when it is strictly greater than 1e-3 = 0.001, and exits with DATAERR
when the value is ≤ 0.001 or not a valid number. -/
theorem validate_arearef_threshold :
    (∀ a : ℚ, validate_arearef (some a) = .ok ↔ 1/1000 < a) ∧
      validate_arearef none = .exitDataErr := by
  constructor
  · intro a
    simp only [validate_arearef]
    split
    next h =>
      constructor
      · intro hcontra; simp at hcontra
      · intro hlt; linarith
    next h =>
      push_neg at h
      exact iff_of_true rfl h
  · rfl

/-- Claim C4: tot is the sum ren + nren; rer is 0 in the 0/0 case and the
exact quotient ren / (ren + nren) whenever the denominator is nonzero. -/
theorem tot_rer_formulas (f : RenNrenCo2) :
    f.tot = f.ren + f.nren ∧
    (f.ren = 0 ∧ f.nren = 0 → f.rer = 0) ∧
    (f.ren + f.nren ≠ 0 → f.rer = f.ren / (f.ren + f.nren)) := by
  refine ⟨rfl, ?_, ?_⟩
  · rintro ⟨h0, h1⟩
    simp [RenNrenCo2.rer, RenNrenCo2.tot, h0, h1]
  · intro h
    simp [RenNrenCo2.rer, RenNrenCo2.tot, h]

/-- Witness for C4 at the triples (2, 3, 0) and (0, 0, 7). -/
theorem tot_rer_formulas_witness :
    RenNrenCo2.tot ⟨2, 3, 0⟩ = 2 + 3 ∧
      RenNrenCo2.rer ⟨2, 3, 0⟩ = 2 / (2 + 3) ∧
      RenNrenCo2.rer ⟨0, 0, 7⟩ = 0 :=
  ⟨(tot_rer_formulas ⟨2, 3, 0⟩).1,
   (tot_rer_formulas ⟨2, 3, 0⟩).2.2 (by norm_num),
   (tot_rer_formulas ⟨0, 0, 7⟩).2.1 ⟨rfl, rfl⟩⟩

/-- Claim C5: a numeric CLI kexp passes validation exactly when it lies in
the closed interval 0 to 1, the non-regulatory warning is printed exactly
when an accepted value differs from the regulatory default 0.0, and a
non-numeric value exits with DATAERR. -/
theorem validate_kexp_range_and_warning (k : ℚ) :
    ((validate_kexp (some k)).1 = .ok ↔ 0 ≤ k ∧ k ≤ 1) ∧
    ((validate_kexp (some k)).2 = true ↔ 0 ≤ k ∧ k ≤ 1 ∧ k ≠ KEXP_DEFAULT) ∧
    KEXP_DEFAULT = 0 ∧ (validate_kexp none).1 = .exitDataErr := by
  refine ⟨?_, ?_, rfl, rfl⟩
  · simp only [validate_kexp]
    split
    next hc =>
      constructor
      · intro hcontra; simp at hcontra
      · rintro ⟨h0, h1⟩
        rcases hc with hc | hc
        · exact absurd h0 (not_le.mpr hc)
        · exact absurd h1 (not_le.mpr hc)
    next hc =>
      push_neg at hc
      exact iff_of_true rfl hc
  · simp only [validate_kexp]
    split
    next hc =>
      constructor
      · intro hcontra; simp at hcontra
      · rintro ⟨h0, h1, _⟩
        rcases hc with hc | hc
        · exact absurd h0 (not_le.mpr hc)
        · exact absurd h1 (not_le.mpr hc)
    next hc =>
      push_neg at hc
      simp only [decide_eq_true_eq]
      constructor
      · intro h; exact ⟨hc.1, hc.2, h⟩
      · rintro ⟨_, _, h⟩; exact h

/-- Claim C6: no cogennepb argument is declared in the CLI parser, so the
values_of lookup main passes to get_factor is always None, and get_factor
resolves the cogeneration-to-non-EPB factor from the CTE_COGENNEPB
components metadata whenever that key parses as a triple. -/
theorem cogennepb_metadata_supplies_factor (m : ArgMatches) (c : Components) (f : RenNrenCo2)
    (h : c.get_meta_rennren "CTE_COGENNEPB" = some f) :
    get_factor (m.values_of "cogennepb") c "CTE_COGENNEPB" =
      .ok (some f) (c.update_meta "CTE_COGENNEPB" (fmtTriple f)) := by
  have hnone : m.values_of "cogennepb" = none :=
    values_of_undeclared m "cogennepb" (by decide)
  rw [hnone]
  simp [get_factor, h]

/-- Witness for C6: metadata CTE_COGENNEPB = "0, 2, 3" resolves. -/
theorem cogennepb_metadata_supplies_factor_witness :
    get_factor ((⟨[], by decide⟩ : ArgMatches).values_of "cogennepb")
        ⟨[⟨"CTE_COGENNEPB", "0, 2, 3"⟩], []⟩ "CTE_COGENNEPB" =
      .ok (some ⟨0, 2, 3⟩)
        ((⟨[⟨"CTE_COGENNEPB", "0, 2, 3"⟩], []⟩ : Components).update_meta
          "CTE_COGENNEPB" (fmtTriple ⟨0, 2, 3⟩)) :=
  cogennepb_metadata_supplies_factor ⟨[], by decide⟩ _ _ (by decide)

/-- Claim C7: every serialized field is an integer multiple of 1/1000 lying
within half a millesimal of the exact field (three-decimal rounding), the
Display string renders each field with three decimals, and addition,
subtraction and both scalar multiplications are exact component-wise
operations with no rounding. -/
theorem serialization_rounds_ops_exact :
    ∀ f g : RenNrenCo2, ∀ r : ℚ,
      (∃ n : ℤ, f.serialized.ren = (n : ℚ) / 1000) ∧
      (∃ n : ℤ, f.serialized.nren = (n : ℚ) / 1000) ∧
      (∃ n : ℤ, f.serialized.co2 = (n : ℚ) / 1000) ∧
      |f.serialized.ren - f.ren| ≤ 1/2000 ∧
      |f.serialized.nren - f.nren| ≤ 1/2000 ∧
      |f.serialized.co2 - f.co2| ≤ 1/2000 ∧
      f.display = "\x7b ren: " ++ fmt3 f.ren ++ ", nren: " ++ fmt3 f.nren ++
        ", co2: " ++ fmt3 f.co2 ++ " \x7d" ∧
      f.add g = ⟨f.ren + g.ren, f.nren + g.nren, f.co2 + g.co2⟩ ∧
      f.sub g = ⟨f.ren - g.ren, f.nren - g.nren, f.co2 - g.co2⟩ ∧
      f.mulScalar r = ⟨f.ren * r, f.nren * r, f.co2 * r⟩ ∧
      scalarMul r f = ⟨r * f.ren, r * f.nren, r * f.co2⟩ :=
  fun f g r =>
    ⟨⟨rustRound (f.ren * 1000), rfl⟩, ⟨rustRound (f.nren * 1000), rfl⟩,
     ⟨rustRound (f.co2 * 1000), rfl⟩,
     round3_near f.ren, round3_near f.nren, round3_near f.co2,
     rfl, rfl, rfl, rfl, rfl⟩

/-- Claim C8: with no CLI occurrence the kexp and arearef of the components
metadata flow through main unvalidated: the validations only see the CLI
default values, so a metadata kexp outside the unit interval and a
metadata arearef ≤ 0 are returned without a DATAERR exit. -/
theorem metadata_kexp_arearef_bypass_validation
    (c : Components) (k a v w : ℚ)
    (hk : c.get_meta_f32 "CTE_KEXP" = some k) (hkr : k < 0 ∨ 1 < k)
    (ha : c.get_meta_f32 "CTE_AREAREF" = some a) (har : a ≤ 0) :
    mainKexp c 0 v = some k ∧ mainArearef c 0 w = some a := by
  have hmk := has_meta_of_get_meta_f32 hk
  have hma := has_meta_of_get_meta_f32 ha
  constructor
  · norm_num [mainKexp, cliValueOrDefault, validate_kexp, get_kexp, hmk, hk]
  · norm_num [mainArearef, cliValueOrDefault, validate_arearef, get_arearef, hma, ha]

/-- Witness for C8: metadata kexp 2.0 (out of range) and arearef 0 (not
positive) reach the engine without a DATAERR exit. -/
theorem metadata_kexp_arearef_bypass_validation_witness :
    mainKexp ⟨[⟨"CTE_KEXP", "2.0"⟩, ⟨"CTE_AREAREF", "0"⟩], []⟩ 0 0 = some 2 ∧
      mainArearef ⟨[⟨"CTE_KEXP", "2.0"⟩, ⟨"CTE_AREAREF", "0"⟩], []⟩ 0 0 = some 0 :=
  metadata_kexp_arearef_bypass_validation _ 2 0 0 0 (by decide) (by norm_num)
    (by decide) (by norm_num)

/-- Claim C9: for non-negative ren and nren, rer lies in the closed unit
interval and tot is non-negative. -/
theorem rer_unit_interval (f : RenNrenCo2) (hr : 0 ≤ f.ren) (hn : 0 ≤ f.nren) :
    0 ≤ f.rer ∧ f.rer ≤ 1 ∧ 0 ≤ f.tot := by
  have htot : f.tot = f.ren + f.nren := rfl
  constructor
  · unfold RenNrenCo2.rer
    split
    · norm_num
    next h =>
      have hpos : 0 < f.tot := lt_of_le_of_ne (by rw [htot]; linarith) (Ne.symm h)
      exact div_nonneg hr hpos.le
  constructor
  · unfold RenNrenCo2.rer
    split
    · norm_num
    next h =>
      have hpos : 0 < f.tot := lt_of_le_of_ne (by rw [htot]; linarith) (Ne.symm h)
      rw [div_le_one hpos, htot]
      linarith
  · rw [htot]; linarith

/-- Witness for C9 at the triple (1, 3, 0). -/
theorem rer_unit_interval_witness :
    0 ≤ RenNrenCo2.rer ⟨1, 3, 0⟩ ∧ RenNrenCo2.rer ⟨1, 3, 0⟩ ≤ 1 ∧
      0 ≤ RenNrenCo2.tot ⟨1, 3, 0⟩ :=
  rer_unit_interval ⟨1, 3, 0⟩ (by norm_num) (by norm_num)

/-- Claim C10: whenever get_factor returns normally, a resolved factor has
been written back into the components metadata under the key formatted to
three decimals per component, and an unresolved lookup leaves the
components unchanged. -/
theorem get_factor_meta_frame (cli : Option (List String)) (c : Components) (meta : String)
    (res : Option RenNrenCo2) (cOut : Components)
    (h : get_factor cli c meta = .ok res cOut) :
    (∀ f, res = some f → cOut = c.update_meta meta (fmtTriple f)) ∧
    (res = none → cOut = c) := by
  cases cli with
  | none =>
    cases hg : c.get_meta_rennren meta with
    | none =>
      have heval : get_factor none c meta = .ok none c := by
        simp [get_factor, hg]
      rw [heval] at h
      injection h with hres hcomp
      constructor
      · intro f hf; rw [← hres] at hf; cases hf
      · intro _; exact hcomp.symm
    | some mv =>
      have heval : get_factor none c meta =
          .ok (some mv) (c.update_meta meta (fmtTriple mv)) := by
        simp [get_factor, hg]
      rw [heval] at h
      injection h with hres hcomp
      constructor
      · intro f hf
        rw [← hres] at hf
        injection hf with hfv
        rw [← hcomp, ← hfv]
      · intro hf; rw [← hres] at hf; cases hf
  | some vs =>
    cases hp : parseValues vs with
    | none =>
      have heval : get_factor (some vs) c meta = .exitDataErr := by
        simp [get_factor, hp]
      rw [heval] at h
      cases h
    | some vv =>
      cases vv with
      | nil =>
        have heval : get_factor (some vs) c meta = .panicIndexOutOfBounds := by
          simp [get_factor, hp]
        rw [heval] at h
        cases h
      | cons r t1 =>
        cases t1 with
        | nil =>
          have heval : get_factor (some vs) c meta = .panicIndexOutOfBounds := by
            simp [get_factor, hp]
          rw [heval] at h
          cases h
        | cons n t2 =>
          cases t2 with
          | nil =>
            have heval : get_factor (some vs) c meta = .panicIndexOutOfBounds := by
              simp [get_factor, hp]
            rw [heval] at h
            cases h
          | cons c3 t3 =>
            have heval : get_factor (some vs) c meta =
                .ok (some ⟨r, n, c3⟩) (c.update_meta meta (fmtTriple ⟨r, n, c3⟩)) := by
              simp [get_factor, hp]
            rw [heval] at h
            injection h with hres hcomp
            constructor
            · intro f hf
              rw [← hres] at hf
              injection hf with hfv
              rw [← hcomp, ← hfv]
            · intro hf; rw [← hres] at hf; cases hf

/-- Witness for C10: a metadata-resolved factor updates the metadata with
the three-decimal rendering of the triple. -/
theorem get_factor_meta_frame_witness :
    (∀ f, (some (⟨1, 0, 0⟩ : RenNrenCo2)) = some f →
        Components.update_meta ⟨[⟨"CTE_RED1", "1, 0, 0"⟩], []⟩ "CTE_RED1"
            (fmtTriple ⟨1, 0, 0⟩) =
          Components.update_meta ⟨[⟨"CTE_RED1", "1, 0, 0"⟩], []⟩ "CTE_RED1"
            (fmtTriple f)) ∧
    ((some (⟨1, 0, 0⟩ : RenNrenCo2)) = none →
        Components.update_meta ⟨[⟨"CTE_RED1", "1, 0, 0"⟩], []⟩ "CTE_RED1"
            (fmtTriple ⟨1, 0, 0⟩) =
          ⟨[⟨"CTE_RED1", "1, 0, 0"⟩], []⟩) :=
  get_factor_meta_frame none ⟨[⟨"CTE_RED1", "1, 0, 0"⟩], []⟩ "CTE_RED1"
    (some ⟨1, 0, 0⟩)
    (Components.update_meta ⟨[⟨"CTE_RED1", "1, 0, 0"⟩], []⟩ "CTE_RED1"
      (fmtTriple ⟨1, 0, 0⟩))
    (by
      have hmeta : Components.get_meta_rennren ⟨[⟨"CTE_RED1", "1, 0, 0"⟩], []⟩ "CTE_RED1"
          = some ⟨1, 0, 0⟩ := by decide
      simp [get_factor, hmeta])

end Epbd
